import Mathlib

/-!
Verification of the CUMTD bus integration's core logic (API client error
classification, departure selection, refresh scheduling) as a shallow
embedding of `custom_components/cumtd_bus/{api.py, coordinator.py}`.

Python `datetime` values are modelled as `Int` (an opaque timestamp: none of
the verified code inspects them), the `trip` dict as an association list of
string keys and values, and HTTP/transport effects as explicit inputs.
-/

/-- Python `str.lower()` on one character (ASCII case folding, the fragment the
direction labels use). -/
def pyLowerChar (c : Char) : Char :=
  if 65 ≤ c.toNat ∧ c.toNat ≤ 90 then Char.ofNat (c.toNat + 32) else c

/-- Python `str.lower()` applied to a whole string. -/
def pyLower (s : String) : String :=
  ⟨s.data.map pyLowerChar⟩

/-- Python `dict.get(key)`: first binding of the key, `None` when absent. -/
def dictGet (m : List (String × String)) (key : String) : Option String :=
  match m with
  | [] => none
  | (k, v) :: rest => if k = key then some v else dictGet rest key

/-- Structure `api.py::Route`. -/
structure Route where
  route_id : String
  route_short_name : Option String
deriving DecidableEq, Repr

/-- Structure `api.py::Departure`. -/
structure Departure where
  stop_id : String
  headsign : String
  route : Route
  trip : List (String × String)
  expected : Int
  expected_mins : Int
  scheduled : Int
  is_monitored : Bool
deriving DecidableEq, Repr

/-- Accessor `api.py::Departure.direction`: `self.trip.get("direction") if self.trip
else None` (an empty dict is falsy). -/
def Departure.direction (d : Departure) : Option String :=
  if d.trip.isEmpty then none else dictGet d.trip "direction"

/-- Accessor `api.py::Departure.trip_id`: `self.trip.get("trip_id") if self.trip
else None`. -/
def Departure.trip_id (d : Departure) : Option String :=
  if d.trip.isEmpty then none else dictGet d.trip "trip_id"

/-- Structure `api.py::Stop`. -/
structure Stop where
  stop_id : String
  stop_name : String
deriving DecidableEq, Repr

/-- Structure `api.py::DeparturesResponse`. -/
structure DeparturesResponse where
  time : Int
  departures : List Departure
deriving DecidableEq, Repr

/-- The in-band `status` object of a response body: `{code, msg}`. -/
structure ApiStatus where
  code : Int
  msg : String
deriving DecidableEq, Repr

/-- The parsed JSON body of a response, restricted to the keys the verified
code reads: the optional `status` object, the `time` field, and the optional
`departures` array (already parsed into `Departure` records). -/
structure RawBody where
  time : Int
  status : Option ApiStatus
  departures : Option (List Departure)
deriving DecidableEq, Repr

/-- An HTTP response as seen by `CUMTDClient._request`: the HTTP status code
and the JSON body it would parse. -/
structure HttpResponse where
  status_code : Nat
  body : RawBody
deriving DecidableEq, Repr

/-- Exception hierarchy of `api.py`: `AuthenticationError` is a subclass of
`CUMTDAPIError`, so one inductive with two constructors models "except
CUMTDAPIError" as catching both. -/
inductive CUMTDAPIError where
  | authenticationError : CUMTDAPIError
  | apiError : Int → String → CUMTDAPIError
deriving DecidableEq, Repr

/-- Function `api.py::CUMTDClient._request` after the HTTP exchange: 401 raises
`AuthenticationError` before the body is consulted; then a present `status`
object with `code != 200` raises `CUMTDAPIError` with that code and message;
otherwise the body is returned. -/
def CUMTDClient.request (resp : HttpResponse) : Except CUMTDAPIError RawBody :=
  if resp.status_code = 401 then
    .error .authenticationError
  else
    match resp.body.status with
    | some st =>
        if st.code ≠ 200 then .error (.apiError st.code st.msg) else .ok resp.body
    | none => .ok resp.body

/-- Function `api.py::CUMTDClient.validate_api_key`, as a function of the probe
request's HTTP response: re-raises `AuthenticationError`, swallows every
other `CUMTDAPIError` and returns `True`. -/
def CUMTDClient.validate_api_key (probe : HttpResponse) : Except CUMTDAPIError Bool :=
  match CUMTDClient.request probe with
  | .ok _ => .ok true
  | .error .authenticationError => .error .authenticationError
  | .error (.apiError _ _) => .ok true

/-- Function `api.py::CUMTDClient.get_departures_by_stop`, as a function of the HTTP
response: on success builds a `DeparturesResponse` from `data["time"]` and
`data.get("departures", [])`. -/
def CUMTDClient.get_departures_by_stop (resp : HttpResponse) :
    Except CUMTDAPIError DeparturesResponse :=
  match CUMTDClient.request resp with
  | .error e => .error e
  | .ok data => .ok { time := data.time, departures := data.departures.getD [] }

/-- Python truthiness of `d.direction and f.lower() == d.direction.lower()`
(the filter predicate of `coordinator.py` lines 68-72): an absent or empty
direction is falsy and never matches. -/
def directionMatches (f : String) (d : Departure) : Bool :=
  match d.direction with
  | none => false
  | some dir => dir != "" && (pyLower f == pyLower dir)

/-- The selection body of `coordinator.py::CUMTDBusCoordinator._async_update_data`
(lines 60-78): empty list → `None`; `if self.direction_filter:` (truthiness:
`None` and `""` are falsy) filter client-side; empty filtered list → `None`;
otherwise `departures[0]`. -/
def selectDeparture (departures : List Departure) (direction_filter : Option String) :
    Option Departure :=
  if departures.isEmpty then none
  else
    let deps :=
      match direction_filter with
      | some f => if f != "" then departures.filter (directionMatches f) else departures
      | none => departures
    if deps.isEmpty then none else deps.head?

/-- The outcome of the network call a refresh tick makes: either an HTTP
response was obtained, or the transport failed (network unreachable, or the
fixed ≈10s per-call timeout elapsed). -/
inductive FetchAttempt where
  | got : HttpResponse → FetchAttempt
  | transportFailure : FetchAttempt
deriving DecidableEq, Repr

/-- What `_async_update_data` can raise: `UpdateFailed` (wrapping a caught
`CUMTDAPIError`), or an uncaught transport error that propagates past the
`except CUMTDAPIError` clause. -/
inductive TickError where
  | updateFailed : CUMTDAPIError → TickError
  | uncaughtTransport : TickError
deriving DecidableEq, Repr

/-- Function `coordinator.py::CUMTDBusCoordinator._async_update_data`: fetch the
departures, select, and re-raise any `CUMTDAPIError` as `UpdateFailed`;
transport failures are not caught and propagate. -/
def async_update_data (fetch : FetchAttempt) (direction_filter : Option String) :
    Except TickError (Option Departure) :=
  match fetch with
  | .transportFailure => .error .uncaughtTransport
  | .got resp =>
      match CUMTDClient.get_departures_by_stop resp with
      | .error e => .error (.updateFailed e)
      | .ok response => .ok (selectDeparture response.departures direction_filter)

/-- The scheduler's per-target state: the last selection and the success flag. -/
structure RefreshState where
  last_data : Option Departure
  last_success : Bool
deriving DecidableEq, Repr

/-- Modelled from the spec: the host framework's refresh wrapper around
`_async_update_data` (the `DataUpdateCoordinator` state machine, which is not
part of the repository sources). On a successful update it replaces
`last_data` with the result — even an absent one — and sets
`last_success := true`; on any raised error it preserves `last_data` and sets
`last_success := false`. -/
def refreshStep (st : RefreshState) (r : Except TickError (Option Departure)) :
    RefreshState :=
  match r with
  | .ok d => { last_data := d, last_success := true }
  | .error _ => { last_data := st.last_data, last_success := false }

/-- One refresh tick of a target: run `_async_update_data` on the fetch
outcome and fold the result into the target's state. -/
def tick (st : RefreshState) (fetch : FetchAttempt) (direction_filter : Option String) :
    RefreshState :=
  refreshStep st (async_update_data fetch direction_filter)

/-- The spec's wording of the direction-filter predicate: the direction is
present and case-insensitively equal to the filter. Stated separately from
`directionMatches` (which is read off the code) so the two can be compared. -/
def specDirMatch (f : String) (d : Departure) : Bool :=
  match d.direction with
  | none => false
  | some dir => pyLower dir == pyLower f

/-! Concrete values used by the witnesses. -/

def sampleDep : Departure :=
  { stop_id := "IT", headsign := "5E Green", route := { route_id := "5", route_short_name := some "5" },
    trip := [("trip_id", "t1"), ("direction", "Eastbound")],
    expected := 300, expected_mins := 5, scheduled := 280, is_monitored := true }

def depNoTrip : Departure :=
  { stop_id := "IT", headsign := "5W Green", route := { route_id := "5", route_short_name := some "5" },
    trip := [],
    expected := 180, expected_mins := 3, scheduled := 170, is_monitored := false }

def respAuthFail : HttpResponse :=
  { status_code := 401, body := { time := 0, status := none, departures := none } }

def respNoDeps : HttpResponse :=
  { status_code := 200, body := { time := 1, status := none, departures := none } }

def respApiErr : HttpResponse :=
  { status_code := 200, body := { time := 2, status := some ⟨500, "server error"⟩, departures := none } }

def depWest : Departure :=
  { stop_id := "IT", headsign := "5W Green", route := { route_id := "5", route_short_name := some "5" },
    trip := [("trip_id", "t2"), ("direction", "Westbound")],
    expected := 180, expected_mins := 3, scheduled := 170, is_monitored := true }

/-! Helper lemmas. -/

theorem head?_filter_eq_find? {α : Type} (p : α → Bool) :
    ∀ l : List α, (List.filter p l).head? = List.find? p l
  | [] => rfl
  | a :: l => by
    by_cases h : p a
    · simp [List.filter_cons, h]
    · simp [List.filter_cons, h, head?_filter_eq_find? p l]

theorem ite_isEmpty_head? {α : Type} (l : List α) :
    (if l.isEmpty then (none : Option α) else l.head?) = l.head? := by
  cases l <;> rfl

theorem pyLower_eq_empty_iff (s : String) : pyLower s = "" ↔ s = "" := by
  constructor
  · intro h
    have hdat : s.data.map pyLowerChar = [] := congrArg String.data h
    have hnil : s.data = [] := List.map_eq_nil_iff.mp hdat
    exact String.ext hnil
  · intro h
    subst h
    rfl

theorem string_beq_comm (a b : String) : (a == b) = (b == a) := by
  by_cases h : a = b
  · subst h
    rfl
  · rw [beq_eq_false_iff_ne.mpr h, beq_eq_false_iff_ne.mpr (Ne.symm h)]

theorem directionMatches_eq_specDirMatch (f : String) (hf : f ≠ "") (d : Departure) :
    directionMatches f d = specDirMatch f d := by
  cases hdir : d.direction with
  | none => simp [directionMatches, specDirMatch, hdir]
  | some dir =>
    by_cases hE : dir = ""
    · subst hE
      have hl : pyLower f ≠ "" := fun h => hf ((pyLower_eq_empty_iff f).mp h)
      have h0 : (pyLower "" == pyLower f) = false := by
        have hpl : pyLower "" = "" := rfl
        rw [hpl]
        exact beq_eq_false_iff_ne.mpr (Ne.symm hl)
      simp [directionMatches, specDirMatch, hdir, h0]
    · have h1 : (dir == "") = false := beq_eq_false_iff_ne.mpr hE
      simp [directionMatches, specDirMatch, hdir, bne, h1, string_beq_comm (pyLower f) (pyLower dir)]

theorem dictGet_eq_none_of_key_absent (k : String) :
    ∀ m : List (String × String), (∀ p ∈ m, p.1 ≠ k) → dictGet m k = none := by
  intro m
  induction m with
  | nil => intro _; rfl
  | cons a rest ih =>
    intro h
    have ha : a.1 ≠ k := h a (List.mem_cons_self a rest)
    have : dictGet rest k = none := ih fun p hp => h p (List.mem_cons_of_mem a hp)
    cases a with
    | mk k' v => simpa [dictGet, ha] using this

/-! Claim theorems. -/

/-- Claim C1: with a set (non-empty) direction filter `f`, one refresh's selection
returns the first departure of the list, in upstream order, whose direction is
present and case-insensitively equal to `f`; when no departure matches, the
result is absent. Departures lacking a direction never match, and the result
is never re-sorted by arrival time (it is `List.find?`, the first match in the
order the upstream response gave). -/
theorem c1_direction_filter_first_match (D : List Departure) (f : String) (hf : f ≠ "") :
    selectDeparture D (some f) = List.find? (specDirMatch f) D := by
  have hne : (f != "") = true := bne_iff_ne.mpr hf
  cases D with
  | nil => rfl
  | cons a l =>
    have hfc : List.filter (directionMatches f) (a :: l) = List.filter (specDirMatch f) (a :: l) :=
      List.filter_congr fun d _ => directionMatches_eq_specDirMatch f hf d
    calc selectDeparture (a :: l) (some f)
        = if (List.filter (directionMatches f) (a :: l)).isEmpty then none
            else (List.filter (directionMatches f) (a :: l)).head? := by
          simp [selectDeparture, hne]
      _ = (List.filter (directionMatches f) (a :: l)).head? := ite_isEmpty_head? _
      _ = (List.filter (specDirMatch f) (a :: l)).head? := by rw [hfc]
      _ = List.find? (specDirMatch f) (a :: l) := head?_filter_eq_find? _ _

theorem c1_witness :
    ("Eastbound" : String) ≠ "" ∧
      selectDeparture [depWest, sampleDep] (some "Eastbound") =
        List.find? (specDirMatch "Eastbound") [depWest, sampleDep] :=
  ⟨by decide, c1_direction_filter_first_match [depWest, sampleDep] "Eastbound" (by decide)⟩

/-- Claim C2: selecting from the empty departure list yields absent for every
filter, and selecting from a non-empty list with no direction filter yields
exactly its first element in upstream order. -/
theorem c2_empty_list_and_unset_filter (f : Option String) (d : Departure) (D : List Departure) :
    selectDeparture [] f = none ∧ selectDeparture (d :: D) none = some d :=
  ⟨rfl, rfl⟩

/-- Claim C10: a direction filter equal to the empty string behaves exactly as
if no filter were set (the filter-active test is Python truthiness, so `""`
counts as unset): on a non-empty list the refresh selects the first element. -/
theorem c10_empty_string_filter_is_unset (D : List Departure) (d : Departure) :
    selectDeparture D (some "") = selectDeparture D none ∧
      selectDeparture (d :: D) (some "") = some d := by
  constructor
  · cases D <;> rfl
  · rfl

/-- Claim C3: a refresh tick whose fetch raises an API-level error (either
`AuthenticationError` or a generic `CUMTDAPIError`) leaves `last_data`
unchanged and sets `last_success := false`: the error never clears the last
good value. -/
theorem c3_api_error_tick_preserves_data (st : RefreshState) (resp : HttpResponse)
    (e : CUMTDAPIError) (f : Option String)
    (h : CUMTDClient.get_departures_by_stop resp = Except.error e) :
    (tick st (FetchAttempt.got resp) f).last_data = st.last_data ∧
      (tick st (FetchAttempt.got resp) f).last_success = false := by
  simp [tick, async_update_data, h, refreshStep]

theorem c3_witness :
    CUMTDClient.get_departures_by_stop respAuthFail =
        Except.error CUMTDAPIError.authenticationError ∧
      (tick ⟨some sampleDep, true⟩ (FetchAttempt.got respAuthFail) (some "Eastbound")).last_data =
        some sampleDep ∧
      (tick ⟨some sampleDep, true⟩ (FetchAttempt.got respAuthFail) (some "Eastbound")).last_success =
        false :=
  ⟨rfl,
   (c3_api_error_tick_preserves_data ⟨some sampleDep, true⟩ respAuthFail
      CUMTDAPIError.authenticationError (some "Eastbound") rfl).1,
   (c3_api_error_tick_preserves_data ⟨some sampleDep, true⟩ respAuthFail
      CUMTDAPIError.authenticationError (some "Eastbound") rfl).2⟩

/-- Claim C4: a refresh tick that succeeds always replaces `last_data` with the
tick's selection result and sets `last_success := true`, even when the
selection is absent (the witness exercises a stale target that ticks to no
matching departure and ends with `last_data = none`, `last_success = true`). -/
theorem c4_success_tick_overwrites (st : RefreshState) (resp : HttpResponse)
    (dr : DeparturesResponse) (f : Option String)
    (h : CUMTDClient.get_departures_by_stop resp = Except.ok dr) :
    tick st (FetchAttempt.got resp) f =
      { last_data := selectDeparture dr.departures f, last_success := true } := by
  simp [tick, async_update_data, h, refreshStep]

theorem c4_witness :
    CUMTDClient.get_departures_by_stop respNoDeps =
        Except.ok { time := 1, departures := [] } ∧
      tick { last_data := some sampleDep, last_success := false }
          (FetchAttempt.got respNoDeps) none =
        { last_data := none, last_success := true } :=
  ⟨rfl,
   c4_success_tick_overwrites { last_data := some sampleDep, last_success := false }
     respNoDeps { time := 1, departures := [] } none rfl⟩

/-- Claim C5: credential validation raises `AuthenticationError` exactly when
the probe request reports an authentication failure, and for every other
API-level error raised by the probe the error is swallowed and the credential
reported valid (`True`). -/
theorem c5_validate_api_key_policy (probe : HttpResponse) :
    (CUMTDClient.validate_api_key probe = Except.error CUMTDAPIError.authenticationError ↔
        CUMTDClient.request probe = Except.error CUMTDAPIError.authenticationError) ∧
      ∀ c m, CUMTDClient.request probe = Except.error (CUMTDAPIError.apiError c m) →
        CUMTDClient.validate_api_key probe = Except.ok true := by
  cases h : CUMTDClient.request probe with
  | ok b => simp [CUMTDClient.validate_api_key, h]
  | error e => cases e <;> simp [CUMTDClient.validate_api_key, h]

theorem c5_witness :
    CUMTDClient.request respApiErr = Except.error (CUMTDAPIError.apiError 500 "server error") ∧
      CUMTDClient.validate_api_key respApiErr = Except.ok true :=
  ⟨rfl, (c5_validate_api_key_policy respApiErr).2 500 "server error" rfl⟩

/-- Claim C6: an HTTP 401 response raises `AuthenticationError` whatever the
body holds (the check precedes any use of the body); otherwise a present
in-band `status` whose code differs from 200 raises the API error carrying
that code and message; otherwise the body is returned as a success, a body
with no `status` object included. -/
theorem c6_request_error_classification (resp : HttpResponse) :
    (resp.status_code = 401 →
        CUMTDClient.request resp = Except.error CUMTDAPIError.authenticationError) ∧
      (resp.status_code ≠ 401 →
        (∀ st, resp.body.status = some st → st.code ≠ 200 →
            CUMTDClient.request resp = Except.error (CUMTDAPIError.apiError st.code st.msg)) ∧
          (∀ st, resp.body.status = some st → st.code = 200 →
              CUMTDClient.request resp = Except.ok resp.body) ∧
          (resp.body.status = none → CUMTDClient.request resp = Except.ok resp.body)) := by
  refine ⟨fun h => by simp [CUMTDClient.request, h],
    fun h => ⟨fun st hst hc => ?_, fun st hst hc => ?_, fun hst => ?_⟩⟩
  · simp [CUMTDClient.request, h, hst, hc]
  · simp [CUMTDClient.request, h, hst, hc]
  · simp [CUMTDClient.request, h, hst]

theorem c6_witness :
    CUMTDClient.request respAuthFail = Except.error CUMTDAPIError.authenticationError ∧
      CUMTDClient.request respApiErr = Except.error (CUMTDAPIError.apiError 500 "server error") ∧
      CUMTDClient.request respNoDeps = Except.ok respNoDeps.body :=
  ⟨(c6_request_error_classification respAuthFail).1 rfl,
   ((c6_request_error_classification respApiErr).2 (by decide)).1 ⟨500, "server error"⟩ rfl
     (by decide),
   ((c6_request_error_classification respNoDeps).2 (by decide)).2.2 rfl⟩

/-- Claim C7: a refresh tick whose network call fails at the transport level
(network unreachable or per-call timeout) ends with `last_success = false` and
`last_data` unchanged, and yields exactly the same state as a tick whose fetch
raised an API-level error: the scheduler applies the same failure handling. -/
theorem c7_transport_failure_policy (st : RefreshState) (f : Option String) :
    (tick st FetchAttempt.transportFailure f).last_success = false ∧
      (tick st FetchAttempt.transportFailure f).last_data = st.last_data ∧
      ∀ resp e, CUMTDClient.get_departures_by_stop resp = Except.error e →
        tick st FetchAttempt.transportFailure f = tick st (FetchAttempt.got resp) f := by
  refine ⟨rfl, rfl, fun resp e h => ?_⟩
  simp [tick, async_update_data, h, refreshStep]

theorem c7_witness :
    CUMTDClient.get_departures_by_stop respAuthFail =
        Except.error CUMTDAPIError.authenticationError ∧
      tick { last_data := some sampleDep, last_success := true }
          FetchAttempt.transportFailure none =
        tick { last_data := some sampleDep, last_success := true }
          (FetchAttempt.got respAuthFail) none :=
  ⟨rfl,
   (c7_transport_failure_policy { last_data := some sampleDep, last_success := true } none).2.2
     respAuthFail CUMTDAPIError.authenticationError rfl⟩

theorem request_ok_body (resp : HttpResponse) (b : RawBody)
    (h : CUMTDClient.request resp = Except.ok b) : b = resp.body := by
  unfold CUMTDClient.request at h
  split at h
  · cases h
  · split at h
    · split at h
      · cases h
      · exact (Except.ok.inj h).symm
    · exact (Except.ok.inj h).symm

/-- Claim C8: when the raw response body lacks the `departures` key entirely
and the request succeeds, `get_departures_by_stop` returns a response whose
`departures` list is empty — the missing key is never an error. -/
theorem c8_missing_departures_is_empty (resp : HttpResponse) (dr : DeparturesResponse)
    (hmiss : resp.body.departures = none)
    (h : CUMTDClient.get_departures_by_stop resp = Except.ok dr) :
    dr.departures = [] := by
  unfold CUMTDClient.get_departures_by_stop at h
  cases hr : CUMTDClient.request resp with
  | error e => rw [hr] at h; cases h
  | ok data =>
    rw [hr] at h
    have h3 : ({ time := data.time, departures := data.departures.getD [] } :
        DeparturesResponse) = dr := Except.ok.inj h
    have hb : data = resp.body := request_ok_body resp data hr
    subst hb
    rw [← h3]
    simp [hmiss]

theorem c8_witness :
    respNoDeps.body.departures = none ∧
      CUMTDClient.get_departures_by_stop respNoDeps =
        Except.ok { time := 1, departures := [] } ∧
      ({ time := 1, departures := [] } : DeparturesResponse).departures = [] :=
  ⟨rfl, rfl,
   c8_missing_departures_is_empty respNoDeps { time := 1, departures := [] } rfl rfl⟩

/-- Claim C9: the `direction` and `trip_id` accessors are total: on an empty
(or falsy/missing) trip mapping both return absent, and when the mapping lacks
the corresponding key the accessor returns absent rather than failing. -/
theorem c9_trip_accessors_tolerant (d : Departure) :
    (d.trip = [] → d.direction = none ∧ d.trip_id = none) ∧
      ((∀ p ∈ d.trip, p.1 ≠ "direction") → d.direction = none) ∧
      ((∀ p ∈ d.trip, p.1 ≠ "trip_id") → d.trip_id = none) := by
  refine ⟨fun h => ?_, fun h => ?_, fun h => ?_⟩
  · simp [Departure.direction, Departure.trip_id, h]
  · by_cases he : d.trip.isEmpty
    · simp [Departure.direction, he]
    · simp [Departure.direction, he, dictGet_eq_none_of_key_absent "direction" d.trip h]
  · by_cases he : d.trip.isEmpty
    · simp [Departure.trip_id, he]
    · simp [Departure.trip_id, he, dictGet_eq_none_of_key_absent "trip_id" d.trip h]

theorem c9_witness :
    depNoTrip.trip = [] ∧ depNoTrip.direction = none ∧ depNoTrip.trip_id = none :=
  ⟨rfl, ((c9_trip_accessors_tolerant depNoTrip).1 rfl).1,
    ((c9_trip_accessors_tolerant depNoTrip).1 rfl).2⟩
